import Mathlib

/-!
Verification development for the browserfreak task-orchestration engine.

The Python sources are shallowly embedded as executable Lean definitions:

* strings are Lean `String`s and Python string methods are modelled
  character-wise on `String.data` (ASCII behaviour, which covers every
  string the program manipulates);
* Python dictionaries of tool arguments become ordered association lists
  `List (String × PyValue)` with unique keys (Python dict keys are unique
  and insertion ordered);
* a Python function that can raise an uncaught exception is embedded as an
  `Option`- or `Except`-valued function, `none` / `.error` marking the raise;
* the regular expressions of decision_engine.py are embedded as decidable
  searches implementing exactly the patterns that appear in the source.

Definitions keep the source names (security.py, decision_engine.py,
tools.py, browser_agent.py) wherever Lean allows.
-/

set_option maxRecDepth 100000

/-! ### Python string primitives -/

/-- The character class which Python `str.strip()` and the regex class
backslash-s remove, restricted to ASCII (the program only manipulates
ASCII text). -/
def isPySpace (c : Char) : Bool :=
  c == ' ' || c == '\t' || c == '\n' || c == '\r' || c == '\x0b' || c == '\x0c'

/-- Strip leading and trailing whitespace from a character list. -/
def stripChars (l : List Char) : List Char :=
  ((l.dropWhile isPySpace).reverse.dropWhile isPySpace).reverse

/-- Python `str.strip()`. -/
def pyStrip (s : String) : String := ⟨stripChars s.data⟩

/-- Python `str.lower()` (character-wise, ASCII). -/
def pyLower (s : String) : String := ⟨s.data.map Char.toLower⟩

/-- Python `str.upper()` (character-wise, ASCII). -/
def pyUpper (s : String) : String := ⟨s.data.map Char.toUpper⟩

/-- Python slicing `s[:n]`. -/
def pyTake (n : Nat) (s : String) : String := ⟨s.data.take n⟩

/-- Does `pat` occur at offset `i` of `s`? -/
def isSubAt (s pat : List Char) (i : Nat) : Bool :=
  (s.drop i).take pat.length == pat

/-- Python substring containment `pat in s`. -/
def containsSub (s pat : String) : Bool :=
  (List.range (s.data.length + 1)).any (fun i => isSubAt s.data pat.data i)

/-- Python `s.replace(" ", "")`. -/
def removeSpaces (s : String) : String := ⟨s.data.filter (fun c => c != ' ')⟩

/-! ### Python values and dict rendering -/

/-- The Python values the program stores in tool-argument dictionaries:
strings, integers, booleans and None. -/
inductive PyValue where
  | str (s : String)
  | int (n : Int)
  | bool (b : Bool)
  | none
deriving DecidableEq

/-- A Python dict from strings to values: an insertion-ordered association
list with unique keys. -/
def PyDict := List (String × PyValue)
deriving DecidableEq

/-- Python `d.get(k)` (`None` when absent is modelled by `Option`). -/
def pyGet (d : PyDict) (k : String) : Option PyValue :=
  List.lookup k d

/-- CPython `repr` of a printable string: the quote character is a double
quote when the string holds a single quote and no double quote, else a
single quote; backslashes and the chosen quote are escaped. -/
def pyReprStr (s : String) : String :=
  let q : Char := if s.data.contains '\'' && !(s.data.contains '"') then '"' else '\''
  let esc : Char → List Char := fun c =>
    if c == '\\' then ['\\', '\\'] else if c == q then ['\\', q] else [c]
  ⟨q :: (s.data.map esc).flatten ++ [q]⟩

/-- Python `str(v)` as used inside f-strings. -/
def pyStrValue (v : PyValue) : String :=
  match v with
  | .str s => s
  | .int n => toString n
  | .bool true => "True"
  | .bool false => "False"
  | .none => "None"

/-- Python `repr(v)`, used for the values of a rendered dict. -/
def pyReprValue (v : PyValue) : String :=
  match v with
  | .str s => pyReprStr s
  | v => pyStrValue v

/-- Python `str(d)` for a dict `d`. -/
def pyStrDict (d : PyDict) : String :=
  "\x7b" ++ String.intercalate ", " (d.map (fun kv => pyReprStr kv.1 ++ ": " ++ pyReprValue kv.2)) ++ "\x7d"

/-! ### Embedded regular-expression searches (decision_engine.py) -/

/-- Python regex word character (ASCII): letters, digits and underscore. -/
def wordChar (c : Char) : Bool := c.isAlphanum || c == '_'

/-- Case-insensitive literal match of `w` at offset `i` of `s`
(`w` is given in lowercase). -/
def ciAt (s : List Char) (i : Nat) (w : List Char) : Bool :=
  ((s.drop i).take w.length).map Char.toLower == w

/-- A word boundary holds before offset `i`, given that the text matched at
`i` starts with a word character. -/
def bBefore (s : List Char) (i : Nat) : Bool :=
  i == 0 || !(wordChar (s.getD (i - 1) ' '))

/-- A word boundary holds after offset `j`, given that the text matched up
to `j` ends with a word character. -/
def bAfter (s : List Char) (j : Nat) : Bool :=
  s.length ≤ j || !(wordChar (s.getD j ' '))

/-- No newline between offsets `i` and `j` (regex `.` does not match a
newline without DOTALL, so a `.*` gap cannot cross one). -/
def noNL (s : List Char) (i j : Nat) : Bool :=
  ((s.drop i).take (j - i)).all (fun c => c != '\n')

/-- One alternative inside a regex group: either a literal word, or the
composite `a.*b` that some alternatives of the source patterns use. -/
inductive RegexAlt where
  | word (w : String)
  | gapPair (a b : String)

/-- The offsets just after each possible match of `alt` starting at `i`. -/
def altEnds (s : List Char) (i : Nat) (alt : RegexAlt) : List Nat :=
  match alt with
  | .word w => if ciAt s i w.data then [i + w.data.length] else []
  | .gapPair a b =>
    if ciAt s i a.data then
      (List.range (s.length + 1)).filterMap (fun m =>
        if i + a.data.length ≤ m && noNL s (i + a.data.length) m && ciAt s m b.data then
          some (m + b.data.length)
        else none)
    else []

/-- `re.search` truthiness for a pattern of shape `\b(alt|...|alt)\b`. -/
def groupSearch1 (s : List Char) (alts : List RegexAlt) : Bool :=
  (List.range (s.length + 1)).any (fun i =>
    bBefore s i && alts.any (fun alt => (altEnds s i alt).any (fun e => bAfter s e)))

/-- `re.search` truthiness for a pattern of shape
`\b(alts1)(\b?).*\b(alts2)\b`: `boundAfter1` states whether the source
pattern closes the first group with a word boundary. -/
def groupSearch2 (s : List Char) (alts1 : List RegexAlt) (boundAfter1 : Bool)
    (alts2 : List RegexAlt) : Bool :=
  (List.range (s.length + 1)).any (fun i =>
    bBefore s i && alts1.any (fun a1 => (altEnds s i a1).any (fun e =>
      (!boundAfter1 || bAfter s e) &&
      (List.range (s.length + 1)).any (fun j =>
        e ≤ j && noNL s e j && bBefore s j &&
        alts2.any (fun a2 => (altEnds s j a2).any (fun e2 => bAfter s e2))))))

/-- Pattern `submit_click`. -/
def submit_click_search (content : String) : Bool :=
  groupSearch2 content.data [.word "click", .word "press", .word "tap"] false
    [.word "submit", .word "send", .word "confirm"]

/-- Pattern `payment_action`. -/
def payment_action_search (content : String) : Bool :=
  groupSearch1 content.data
    [.word "pay", .word "purchase", .word "buy", .word "checkout", .gapPair "complete" "order"]

/-- Pattern `text_input`. -/
def text_input_search (content : String) : Bool :=
  groupSearch2 content.data
    [.word "type", .word "enter", .gapPair "fill" "in", .word "input", .word "write"] true
    [.word "text", .word "information", .word "data"]

/-- Pattern `finish_task`. -/
def finish_task_search (content : String) : Bool :=
  groupSearch1 content.data
    [.word "finish", .word "complete", .word "done", .word "end", .word "stop"]

/-- Pattern `navigate_action`. -/
def navigate_action_search (content : String) : Bool :=
  groupSearch2 content.data
    [.word "navigate", .gapPair "go" "to", .word "open", .word "visit"] true
    [.word "page", .word "url", .word "link", .word "website"]

/-- Pattern `search_action`. -/
def search_action_search (content : String) : Bool :=
  groupSearch1 content.data [.word "search", .word "find", .gapPair "look" "for"]

/-- Pattern `scroll_action`. -/
def scroll_action_search (content : String) : Bool :=
  groupSearch1 content.data
    [.word "scroll", .gapPair "move" "down", .gapPair "move" "up", .gapPair "go" "down",
     .gapPair "go" "up", .gapPair "page" "down", .gapPair "page" "up"]

/-- The website names of the `website_mention` pattern, in alternation
order. -/
def website_names : List String :=
  ["amazon", "google", "youtube", "facebook", "twitter", "netflix", "ebay", "reddit",
   "linkedin", "instagram", "wikipedia", "github", "stackoverflow", "microsoft", "apple"]

/-- The first website alternative matching at offset `i` with a trailing
word boundary; returns `group(0)`, the matched slice of the original text
with its original casing. -/
def websiteMatchAt (s : List Char) (i : Nat) : Option String :=
  website_names.findSome? (fun name =>
    if ciAt s i name.data && bAfter s (i + name.data.length) then
      some ⟨(s.drop i).take name.data.length⟩
    else none)

/-- `re.search` for the `website_mention` pattern: the leftmost
word-bounded website name; `group(0)` of the match. -/
def websiteSearch (s : String) : Option String :=
  (List.range (s.data.length + 1)).findSome? (fun i =>
    if bBefore s.data i then websiteMatchAt s.data i else none)

/-- Does the inner extraction regex of the `text_input` branch match?  The
pattern is `(type|enter|fill)` then `.*` then optional quote, lazy group,
optional quote, `.*`, then `(into|in)`; it matches exactly when one of the
three verbs occurs (no word boundary) with an occurrence of `in` at or
after its end in the same newline-free span. -/
def text_extract_matches (content : String) : Bool :=
  (List.range (content.data.length + 1)).any (fun i =>
    ["type", "enter", "fill"].any (fun w =>
      ciAt content.data i w.data &&
      (List.range (content.data.length + 1)).any (fun q =>
        i + w.data.length ≤ q && noNL content.data (i + w.data.length) q &&
        ciAt content.data q ['i', 'n'])))

/-- Python `x or default` for strings. -/
def pyOrDefault (s d : String) : String := if s = "" then d else s

/-- End of the maximal digit run starting at `i`. -/
def digitRunEnd (s : List Char) (i : Nat) : Nat :=
  i + ((s.drop i).takeWhile Char.isDigit).length

/-- End of the maximal whitespace run starting at `d`. -/
def wsRunEnd (s : List Char) (d : Nat) : Nat :=
  d + ((s.drop d).takeWhile isPySpace).length

/-- Match of `(pixels?|px)` followed by a word boundary at offset `w`. -/
def pixelUnitAt (s : List Char) (w : Nat) : Bool :=
  (ciAt s w "pixels".data && bAfter s (w + 6)) ||
  (ciAt s w "pixel".data && bAfter s (w + 5)) ||
  (ciAt s w "px".data && bAfter s (w + 2))

/-- Numeric value of a digit run. -/
def natOfDigits (l : List Char) : Nat :=
  l.foldl (fun n c => n * 10 + (c.toNat - 48)) 0

/-- `re.search` for the scroll-amount pattern (word boundary, digits,
optional whitespace, pixel unit, word boundary); returns `int(group(1))`
of the leftmost match. -/
def scrollAmountSearch (content : String) : Option Nat :=
  let s := content.data
  (List.range s.length).findSome? (fun i =>
    if bBefore s i && (s.getD i ' ').isDigit then
      let d := digitRunEnd s i
      if pixelUnitAt s (wsRunEnd s d) then some (natOfDigits ((s.drop i).take (d - i)))
      else none
    else none)

/-- The scroll direction chosen by the fallback scroll branch: the chain of
substring tests of the source, with default direction "down". -/
def scrollDirection (content : String) : String :=
  if containsSub content "up" then "up"
  else if containsSub content "down" then "down"
  else if containsSub content "left" then "left"
  else if containsSub content "right" then "right"
  else "down"

/-! ### security.py -/

/-- The destructive keyword list of `SecurityManager.__init__`. -/
def destructive_keywords : List String :=
  ["pay", "delete", "checkout", "purchase", "buy", "submit payment", "confirm order",
   "transfer", "send money", "authorize payment", "complete transaction", "finalize purchase"]

/-- `SecurityManager.is_destructive_action`.  The first argument embeds
`settings.agent.enable_security_checks` (its configuration default is
`True`). -/
def is_destructive_action (enable_security_checks : Bool) (action_description : String) : Bool :=
  if !enable_security_checks then false
  else destructive_keywords.any (fun k => containsSub (pyLower action_description) k)

/-- `tool_args.get(key, "").lower()`: `none` embeds the `AttributeError`
raised when the stored value is not a string. -/
def getLowerStr (tool_args : PyDict) (key : String) : Option String :=
  match pyGet tool_args key with
  | Option.none => some ""
  | some (PyValue.str s) => some (pyLower s)
  | some _ => Option.none

/-- The action description `f"(tool_name) (str(tool_args))"` checked by the
keyword classifier. -/
def renderedDescription (tool_name : String) (tool_args : PyDict) : String :=
  tool_name ++ " " ++ pyStrDict tool_args

/-- `SecurityManager.should_require_approval`; `none` embeds an uncaught
`AttributeError` from lowering a non-string argument value. -/
def should_require_approval (enable_security_checks : Bool) (tool_name : String)
    (tool_args : PyDict) : Option Bool :=
  if !enable_security_checks then some false
  else if tool_name = "click_element" then
    match getLowerStr tool_args "selector" with
    | Option.none => Option.none
    | some selector =>
      if ["pay", "checkout", "purchase", "submit"].any (fun k => containsSub selector k) then
        some true
      else
        some (is_destructive_action enable_security_checks
          (renderedDescription tool_name tool_args))
  else if tool_name = "type_text" then
    match getLowerStr tool_args "text" with
    | Option.none => Option.none
    | some text =>
      if ["password", "credit", "card", "ssn", "social"].any (fun k => containsSub text k) then
        some true
      else
        some (is_destructive_action enable_security_checks
          (renderedDescription tool_name tool_args))
  else
    some (is_destructive_action enable_security_checks (renderedDescription tool_name tool_args))

/-- `SecurityManager.get_approval_message`; `none` embeds the `TypeError`
raised by slicing a non-string `text` value. -/
def get_approval_message (tool_name : String) (tool_args : PyDict) : Option String :=
  if tool_name = "click_element" then
    some ("Click on element: " ++
      pyStrValue ((pyGet tool_args "selector").getD (PyValue.str "unknown element")))
  else if tool_name = "type_text" then
    match (pyGet tool_args "text").getD (PyValue.str "") with
    | PyValue.str t =>
      some ("Type text into " ++
        pyStrValue ((pyGet tool_args "selector").getD (PyValue.str "unknown field")) ++
        ": '" ++ pyTake 50 t ++ "...'")
    | _ => Option.none
  else if tool_name = "navigate_to_website" then
    some ("Navigate to website: " ++
      pyStrValue ((pyGet tool_args "website_name").getD (PyValue.str "unknown website")))
  else
    some ("Execute " ++ tool_name ++ " with args: " ++ pyStrDict tool_args)

/-! ### Conversation data model -/

/-- A tool call as produced by the decision engine: a name and the
argument dict (the engine never attaches an id field). -/
structure ToolCall where
  name : String
  args : PyDict
deriving DecidableEq

/-- One conversation message dict.  An `Option` field is `none` exactly
when the corresponding key is absent from the Python dict. -/
structure Message where
  role : String
  content : Option String := Option.none
  tool_calls : Option (List ToolCall) := Option.none
  tool_call_id : Option String := Option.none
deriving DecidableEq

/-- A decision result: either a tool-call list (`"tool_calls" in result`)
or terminal text content. -/
inductive Decision where
  | toolCalls (tcs : List ToolCall)
  | content (c : String)
deriving DecidableEq

/-- Python `messages[-1]` (`none` embeds the IndexError on an empty list). -/
def lastMessage? (messages : List Message) : Option Message :=
  messages.getLast?

/-! ### decision_engine.py -/

/-- `DecisionEngine._validate_messages`: `true` when a `ValidationError`
is raised.  Content being a non-string dict value is not representable in
the embedding (content is typed), so the isinstance check collapses. -/
def validate_messages_raises (messages : List Message) : Bool :=
  match lastMessage? messages with
  | Option.none => true
  | some last =>
    match last.content with
    | Option.none => true
    | some c => pyStrip c == ""

/-- The first user message of the conversation, stripped, as scanned by the
loop of `_make_fallback_decision`.  The outer `none` embeds the `KeyError`
raised when that message has no content key; the inner `Option` is the
Python `None` kept when no user message exists. -/
def firstUserContent (messages : List Message) : Option (Option String) :=
  match messages.find? (fun m => m.role == "user") with
  | Option.none => some Option.none
  | some m =>
    match m.content with
    | some c => some (some (pyStrip c))
    | Option.none => Option.none

/-- The website check on the original user message: run only when
`original_user_message` is truthy (present and nonempty). -/
def websiteCheckOriginal (original_user_message : Option String) : Option String :=
  match original_user_message with
  | some u => if u = "" then Option.none else websiteSearch u
  | Option.none => Option.none

/-- The terminal informational response of the unrecognized-input branch. -/
def defaultResponse (page_has_forms page_has_inputs page_has_buttons : Bool) : String :=
  let base := "I understand your request, but I need more specific instructions to complete this task."
  let suggestions :=
    (if page_has_forms then ["I see forms on this page"] else []) ++
    (if page_has_inputs then ["there are input fields available"] else []) ++
    (if page_has_buttons then ["clickable buttons are present"] else [])
  let response := if suggestions.isEmpty then base
    else base ++ " " ++ String.intercalate ", " suggestions ++ "."
  response ++ " Please provide more specific instructions or say 'finish' to complete the task."

/-- `DecisionEngine._make_fallback_decision`.  `none` embeds an uncaught
exception (IndexError on an empty message list, KeyError on a message
without content).  The page-affordance booleans use that `"form" in ""`
is false, so the truthiness guard on `page_context` collapses. -/
def make_fallback_decision (messages : List Message) (page_context : String) : Option Decision :=
  match lastMessage? messages with
  | Option.none => Option.none
  | some last =>
    match last.content with
    | Option.none => Option.none
    | some rawContent =>
      let content := pyLower (pyStrip rawContent)
      match firstUserContent messages with
      | Option.none => Option.none
      | some original_user_message =>
        let page_has_forms := containsSub (pyLower page_context) "form"
        let page_has_inputs := containsSub (pyLower page_context) "input"
        let page_has_buttons := containsSub (pyLower page_context) "button"
        match websiteCheckOriginal original_user_message with
        | some website_name =>
          some (Decision.toolCalls
            [⟨"navigate_to_website", [("website_name", PyValue.str website_name)]⟩])
        | Option.none =>
          if finish_task_search content then some (Decision.content "FINISH")
          else if submit_click_search content then
            some (Decision.toolCalls [⟨"click_element",
              [("selector", PyValue.str
                (if page_has_forms then "button[type='submit']" else "button"))]⟩])
          else if payment_action_search content then
            some (Decision.toolCalls [⟨"click_element",
              [("selector", PyValue.str "button.pay-now, button.checkout, button#purchase")]⟩])
          else if text_input_search content then
            let text_to_input :=
              if text_extract_matches content then pyOrDefault "" "test data" else "test data"
            some (Decision.toolCalls [⟨"type_text",
              [("selector", PyValue.str
                 (if page_has_inputs then "input[type='text'], input:not([type]), textarea"
                  else "input")),
               ("text", PyValue.str text_to_input)]⟩])
          else if scroll_action_search content then
            some (Decision.toolCalls [⟨"scroll_page",
              [("direction", PyValue.str (scrollDirection content)),
               ("amount", PyValue.int ((scrollAmountSearch content).getD 500))]⟩])
          else if navigate_action_search content || search_action_search content then
            some (Decision.toolCalls [⟨"get_page_state", []⟩])
          else
            match websiteSearch content with
            | some website_name =>
              some (Decision.toolCalls
                [⟨"navigate_to_website", [("website_name", PyValue.str website_name)]⟩])
            | Option.none =>
              match websiteSearch (pyStrip rawContent) with
              | some website_name =>
                some (Decision.toolCalls
                  [⟨"navigate_to_website", [("website_name", PyValue.str website_name)]⟩])
              | Option.none =>
                some (Decision.content
                  (defaultResponse page_has_forms page_has_inputs page_has_buttons))

/-- `DecisionEngine.make_decision` for the default configuration, in which
no Anthropic API key is set (`anthropic_client.is_available` is false), so
after validation every decision comes from the rule-based fallback.
`none` embeds a raised exception. -/
def make_decision (messages : List Message) (page_context : String) : Option Decision :=
  if validate_messages_raises messages then Option.none
  else make_fallback_decision messages page_context

/-! ### tools.py -/

/-- The mock page state returned whenever no live browser is attached. -/
def mockPageHtml : String := "<html><body><button>Submit</button></body></html>"

/-- The behaviour of a live browser session, as seen through the
browser_manager operations the tool wrappers call.  Each operation may
raise (`Except.error`), matching browser_manager.py, whose functions raise
BrowserError and its subtypes. -/
structure BrowserEnv where
  click_element : PyValue → Except String Bool
  type_text : PyValue → PyValue → Except String Bool
  get_interactive_elements : Except String PyDict
  scroll_page : PyValue → PyValue → PyValue → PyValue → Except String Bool
  navigate_to_url : String → Except String Unit

/-- `click_element_wrapper`: mock mode returns True; a raise from the
browser operation is caught and becomes False. -/
def click_element_wrapper (context : Option BrowserEnv) (selector : PyValue) : PyValue :=
  match context with
  | Option.none => PyValue.bool true
  | some env =>
    match env.click_element selector with
    | Except.ok b => PyValue.bool b
    | Except.error _ => PyValue.bool false

/-- `type_text_wrapper`.  In mock mode the source slices `text[:50]` inside
the debug log, so a non-string text raises there; that raise is caught at
the `execute_tool` boundary and becomes False, folded in here. -/
def type_text_wrapper (context : Option BrowserEnv) (selector text : PyValue) : PyValue :=
  match context with
  | Option.none =>
    match text with
    | PyValue.str _ => PyValue.bool true
    | _ => PyValue.bool false
  | some env =>
    match env.type_text selector text with
    | Except.ok b => PyValue.bool b
    | Except.error _ => PyValue.bool false

/-- `get_page_state_wrapper`: the mock page state in mock mode; on a live
session, the `cleaned_html` entry of the page analysis, with the mock page
as default both when the key is absent and when the operation raises. -/
def get_page_state_wrapper (context : Option BrowserEnv) : PyValue :=
  match context with
  | Option.none => PyValue.str mockPageHtml
  | some env =>
    match env.get_interactive_elements with
    | Except.ok result => (pyGet result "cleaned_html").getD (PyValue.str mockPageHtml)
    | Except.error _ => PyValue.str mockPageHtml

/-- `scroll_page_wrapper`. -/
def scroll_page_wrapper (context : Option BrowserEnv)
    (direction amount element_selector smooth : PyValue) : PyValue :=
  match context with
  | Option.none => PyValue.bool true
  | some env =>
    match env.scroll_page direction amount element_selector smooth with
    | Except.ok b => PyValue.bool b
    | Except.error _ => PyValue.bool false

/-- `navigate_to_website_wrapper`: the URL is synthesized from the
lowercased, space-free website name; a non-string name raises inside the
try block (AttributeError on `.lower()`) and becomes False. -/
def navigate_to_website_wrapper (context : Option BrowserEnv) (website_name : PyValue) : PyValue :=
  match context with
  | Option.none => PyValue.bool true
  | some env =>
    match website_name with
    | PyValue.str w =>
      match env.navigate_to_url ("https://www." ++ removeSpaces (pyLower w) ++ ".com") with
      | Except.ok _ => PyValue.bool true
      | Except.error _ => PyValue.bool false
    | _ => PyValue.bool false

/-- Keyword unpacking `f(context, **tool_args)` for a signature with the
single required parameter `selector` (respectively `website_name`): any
other key or a missing key is a TypeError, caught at the `execute_tool`
boundary. -/
def kwargsSingle (tool_args : PyDict) (key : String) : Option PyValue :=
  match pyGet tool_args key with
  | some v => if tool_args.all (fun kv => kv.1 == key) then some v else Option.none
  | Option.none => Option.none

/-- Keyword unpacking for `type_text_wrapper(context, selector, text)`. -/
def kwargsTypeText (tool_args : PyDict) : Option (PyValue × PyValue) :=
  match pyGet tool_args "selector", pyGet tool_args "text" with
  | some s, some t =>
    if tool_args.all (fun kv => kv.1 == "selector" || kv.1 == "text") then some (s, t)
    else Option.none
  | _, _ => Option.none

/-- Keyword unpacking for `scroll_page_wrapper`, whose parameters all have
defaults (direction "down", amount 500, element_selector None,
smooth False). -/
def kwargsScroll (tool_args : PyDict) : Option (PyValue × PyValue × PyValue × PyValue) :=
  if tool_args.all (fun kv =>
      kv.1 == "direction" || kv.1 == "amount" || kv.1 == "element_selector" || kv.1 == "smooth")
  then
    some ((pyGet tool_args "direction").getD (PyValue.str "down"),
      (pyGet tool_args "amount").getD (PyValue.int 500),
      (pyGet tool_args "element_selector").getD PyValue.none,
      (pyGet tool_args "smooth").getD (PyValue.bool false))
  else Option.none

/-- `execute_tool`: uniform dispatch over the five known tools; an unknown
name and any exception escaping a wrapper call (in particular a TypeError
from keyword unpacking) yield False.  `get_page_state` ignores the
argument dict entirely, as in the source. -/
def execute_tool (context : Option BrowserEnv) (tool_name : String) (tool_args : PyDict) :
    PyValue :=
  if tool_name = "click_element" then
    match kwargsSingle tool_args "selector" with
    | some sel => click_element_wrapper context sel
    | Option.none => PyValue.bool false
  else if tool_name = "type_text" then
    match kwargsTypeText tool_args with
    | some (sel, txt) => type_text_wrapper context sel txt
    | Option.none => PyValue.bool false
  else if tool_name = "get_page_state" then
    get_page_state_wrapper context
  else if tool_name = "scroll_page" then
    match kwargsScroll tool_args with
    | some (d, a, es, sm) => scroll_page_wrapper context d a es sm
    | Option.none => PyValue.bool false
  else if tool_name = "navigate_to_website" then
    match kwargsSingle tool_args "website_name" with
    | some w => navigate_to_website_wrapper context w
    | Option.none => PyValue.bool false
  else PyValue.bool false

/-! ### browser_agent.py: the compiled workflow -/

/-- The graph state `AgentState` of browser_agent.py. -/
structure AgentState where
  messages : List Message
  page_map : String
  browser_action : String
  task_complete : Bool
deriving DecidableEq

/-- `security_check_node` as run by the compiled graph.  The node wrappers
installed by `create_workflow` pass no browser context, so the page map is
always the mock page state; a truthy pending `browser_action` is cleared
(simulated approval). -/
def security_check_node (state : AgentState) : AgentState :=
  let state1 := { state with page_map := mockPageHtml }
  if state1.browser_action ≠ "" then { state1 with browser_action := "" } else state1

/-- `agent_node`.  The first argument embeds
`settings.agent.enable_security_checks` (configuration default `True`);
decisions come from `make_decision`; `none` embeds a raised exception
(including the IndexError of `result["tool_calls"][0]` on an empty list). -/
def agent_node (enable_security_checks : Bool) (state : AgentState) : Option AgentState :=
  match make_decision state.messages state.page_map with
  | Option.none => Option.none
  | some (Decision.toolCalls []) => Option.none
  | some (Decision.toolCalls (tool_call :: _)) =>
    match should_require_approval enable_security_checks tool_call.name tool_call.args with
    | Option.none => Option.none
    | some true =>
      match get_approval_message tool_call.name tool_call.args with
      | Option.none => Option.none
      | some approval_message =>
        some { state with
          browser_action := approval_message,
          messages := state.messages ++ [{ role := "assistant", tool_calls := some [tool_call] }] }
    | some false =>
      some { state with
        messages := state.messages ++ [{ role := "assistant", tool_calls := some [tool_call] }] }
  | some (Decision.content c) =>
    if containsSub (pyUpper c) "FINISH" then
      some { state with
        task_complete := true,
        messages := state.messages ++
          [{ role := "assistant", content := some "Task completed successfully" }] }
    else
      some { state with
        messages := state.messages ++ [{ role := "assistant", content := some c }],
        task_complete := true }

/-- `tool_node` as run by the compiled graph (whose `tool_wrapper` passes no
browser context, so execution is always in mock mode and the
`get_page_state` page-map refresh is skipped).  The decision engine never
attaches an id to a tool call, so `tool_call.get("id", "1")` is "1". -/
def tool_node (state : AgentState) : Option AgentState :=
  match lastMessage? state.messages with
  | Option.none => Option.none
  | some last =>
    match last.tool_calls with
    | Option.none => some state
    | some [] => Option.none
    | some (tool_call :: _) =>
      let result := execute_tool Option.none tool_call.name tool_call.args
      some { state with
        messages := state.messages ++
          [{ role := "tool", tool_call_id := some "1",
             content := some ("Tool " ++ tool_call.name ++ " executed with result: " ++
               pyStrValue result) }],
        task_complete := true }

/-- `human_approval_node`: simulated approval, clearing the pending
action. -/
def human_approval_node (state : AgentState) : AgentState :=
  { state with browser_action := "" }

/-- The nodes of the compiled graph; `terminal` is the END sentinel. -/
inductive WorkflowNode where
  | security_check
  | agent
  | tool
  | human_approval
  | terminal
deriving DecidableEq

/-- Edge `should_request_approval` leaving `security_check`. -/
def should_request_approval (state : AgentState) : WorkflowNode :=
  if state.browser_action ≠ "" then WorkflowNode.human_approval else WorkflowNode.agent

/-- Edge `should_continue_to_tool` leaving `agent`: its only test is
whether the last message carries a `tool_calls` key.  `none` embeds the
IndexError on an empty message list. -/
def should_continue_to_tool (state : AgentState) : Option WorkflowNode :=
  match lastMessage? state.messages with
  | Option.none => Option.none
  | some last =>
    some (if last.tool_calls.isSome then WorkflowNode.tool else WorkflowNode.terminal)

/-- Edge `should_end_workflow` leaving `tool`. -/
def should_end_workflow (state : AgentState) : WorkflowNode :=
  if state.task_complete then WorkflowNode.terminal else WorkflowNode.security_check

/-- One super-step of the compiled graph: run the node, then follow its
edge.  `terminal` is absorbing.  `none` embeds an exception escaping a
node, which `run_agent_workflow` turns into a failed run. -/
def workflowStep (enable_security_checks : Bool) (node : WorkflowNode) (state : AgentState) :
    Option (WorkflowNode × AgentState) :=
  match node with
  | WorkflowNode.security_check =>
    let state1 := security_check_node state
    some (should_request_approval state1, state1)
  | WorkflowNode.agent =>
    match agent_node enable_security_checks state with
    | Option.none => Option.none
    | some state1 =>
      match should_continue_to_tool state1 with
      | Option.none => Option.none
      | some next => some (next, state1)
  | WorkflowNode.tool =>
    match tool_node state with
    | Option.none => Option.none
    | some state1 => some (should_end_workflow state1, state1)
  | WorkflowNode.human_approval =>
    let state1 := human_approval_node state
    some (WorkflowNode.agent, state1)
  | WorkflowNode.terminal => some (WorkflowNode.terminal, state)

/-- `n` super-steps of the compiled graph. -/
def runSteps (enable_security_checks : Bool) :
    Nat → WorkflowNode × AgentState → Option (WorkflowNode × AgentState)
  | 0, ns => some ns
  | n + 1, (node, state) =>
    (workflowStep enable_security_checks node state).bind
      (runSteps enable_security_checks n)

/-- The initial graph state built by `run_agent_workflow` (entry point is
`security_check`). -/
def initState (initial_task : String) : AgentState :=
  { messages := [{ role := "user", content := some (pyStrip initial_task) }],
    page_map := "", browser_action := "", task_complete := false }

/-! ### run_agent_workflow: validation, retry layers, teardown -/

/-- The opaque browser context handle created by `create_browser_context`
(the workflow nodes never receive it, so only its presence matters). -/
def BrowserContextHandle := Unit

/-- The outcome `run_agent_workflow` hands back after the try/except:
either the final graph state from `app.ainvoke`, or the error dict built
in the except branch (which carries the error message and the first 100
characters of the task, and whose `task_complete` is false). -/
inductive RunResult where
  | finalState (state : AgentState)
  | errorState (error_message : String) (task_excerpt : String)
deriving DecidableEq

/-- Side-effect trace of one `run_agent_workflow` call: how many browser
creation attempts ran, whether a context was created, how many times the
teardown sequence was entered, and how many close attempts it made. -/
structure RunTrace where
  createCalls : Nat
  ctxCreated : Bool
  teardownRuns : Nat
  closeAttempts : Nat
deriving DecidableEq

/-- The browser-creation retry loop (up to 3 attempts of
`create_browser_context` plus the test navigation, abstracted as an
oracle per attempt); after 3 failures the run falls back to mock mode. -/
def createLoop (createOracle : Nat → Except String BrowserContextHandle) :
    Option BrowserContextHandle × Nat :=
  match createOracle 0 with
  | Except.ok c => (some c, 1)
  | Except.error _ =>
    match createOracle 1 with
    | Except.ok c => (some c, 2)
    | Except.error _ =>
      match createOracle 2 with
      | Except.ok c => (some c, 3)
      | Except.error _ => (Option.none, 3)

/-- The workflow retry loop (up to 2 attempts of `create_workflow` plus
`app.ainvoke`, abstracted as an oracle per attempt); the second failure is
re-raised and caught by the outer except. -/
def workflowLoop (workflowOracle : Nat → Except String AgentState) : Except String AgentState :=
  match workflowOracle 0 with
  | Except.ok s => Except.ok s
  | Except.error _ => workflowOracle 1

/-- The teardown loop of the finally block: up to 3 attempts of
`close_browser_context`; every failure is caught, and after the third the
loop gives up with only an error log.  Returns the number of attempts. -/
def cleanupLoop (closeOracle : Nat → Except String Unit) : Nat :=
  match closeOracle 0 with
  | Except.ok _ => 1
  | Except.error _ =>
    match closeOracle 1 with
    | Except.ok _ => 2
    | Except.error _ => 3

/-- `run_agent_workflow`.  `Except.error` models the only exception that
escapes the function, the ValidationError raised before any resource is
acquired; everything later is caught and folded into a returned
`RunResult`.  The three oracles abstract the effectful collaborators
(browser creation with its test navigation, one full `ainvoke` of the
compiled workflow, and `close_browser_context`). -/
def run_agent_workflow (initial_task : String) (max_iterations : Int) (use_real_browser : Bool)
    (createOracle : Nat → Except String BrowserContextHandle)
    (workflowOracle : Nat → Except String AgentState)
    (closeOracle : Nat → Except String Unit) :
    Except String RunResult × RunTrace :=
  if pyStrip initial_task = "" then
    (Except.error "Task description cannot be empty", ⟨0, false, 0, 0⟩)
  else if max_iterations < 1 ∨ max_iterations > 20 then
    (Except.error "max_iterations must be between 1 and 20", ⟨0, false, 0, 0⟩)
  else
    let created := if use_real_browser then createLoop createOracle else (Option.none, 0)
    let body : RunResult :=
      match workflowLoop workflowOracle with
      | Except.ok final_state => RunResult.finalState final_state
      | Except.error e => RunResult.errorState e (pyTake 100 initial_task)
    match created.1 with
    | some _ =>
      (Except.ok body, ⟨created.2, true, 1, cleanupLoop closeOracle⟩)
    | Option.none =>
      (Except.ok body, ⟨created.2, false, 0, 0⟩)

/-! ### Helper lemmas -/

theorem head?_dropWhile_not (p : Char → Bool) (l : List Char) :
    ∀ a, (l.dropWhile p).head? = some a → p a = false := by
  induction l with
  | nil => simp [List.dropWhile]
  | cons x xs ih =>
    intro a h
    rw [List.dropWhile_cons] at h
    by_cases hx : p x = true
    · rw [if_pos hx] at h
      exact ih a h
    · rw [if_neg hx] at h
      simp at h
      subst h
      exact Bool.eq_false_iff.mpr hx

theorem dropWhile_eq_self_of_head? (p : Char → Bool) (l : List Char)
    (h : ∀ a, l.head? = some a → p a = false) : l.dropWhile p = l := by
  cases l with
  | nil => rfl
  | cons x xs =>
    rw [List.dropWhile_cons, if_neg]
    simp [h x rfl]

theorem getLast?_dropWhile (p : Char → Bool) (l : List Char) (h : l.dropWhile p ≠ []) :
    (l.dropWhile p).getLast? = l.getLast? := by
  induction l with
  | nil => simp [List.dropWhile] at h
  | cons x xs ih =>
    rw [List.dropWhile_cons]
    rw [List.dropWhile_cons] at h
    by_cases hx : p x = true
    · rw [if_pos hx] at h ⊢
      have hxs : xs ≠ [] := by
        intro he
        subst he
        simp [List.dropWhile] at h
      cases xs with
      | nil => exact absurd rfl hxs
      | cons y ys => rw [ih h, List.getLast?_cons_cons]
    · rw [if_neg hx]

theorem dropWhile_dropWhile (p : Char → Bool) (l : List Char) :
    (l.dropWhile p).dropWhile p = l.dropWhile p :=
  dropWhile_eq_self_of_head? p _ (head?_dropWhile_not p l)

theorem stripChars_idem (l : List Char) : stripChars (stripChars l) = stripChars l := by
  unfold stripChars
  set a := l.dropWhile isPySpace with ha
  set c := a.reverse.dropWhile isPySpace with hc
  by_cases hcn : c = []
  · simp [hcn, List.dropWhile]
  · have h1 : c.reverse.dropWhile isPySpace = c.reverse := by
      apply dropWhile_eq_self_of_head? isPySpace
      intro x hx
      rw [List.head?_reverse] at hx
      rw [getLast?_dropWhile isPySpace a.reverse hcn, List.getLast?_reverse] at hx
      exact head?_dropWhile_not isPySpace l x (ha ▸ hx)
    rw [h1, List.reverse_reverse, hc, dropWhile_dropWhile]

theorem pyStrip_idem (s : String) : pyStrip (pyStrip s) = pyStrip s := by
  unfold pyStrip
  exact congrArg String.mk (stripChars_idem s.data)

theorem lastMessage?_append_one (l : List Message) (m : Message) :
    lastMessage? (l ++ [m]) = some m := by
  simp [lastMessage?]

theorem containsSub_pyLower (s pat : String) (hpat : pat.data.map Char.toLower = pat.data)
    (h : containsSub s pat = true) : containsSub (pyLower s) pat = true := by
  unfold containsSub at h ⊢
  rw [List.any_eq_true] at h ⊢
  obtain ⟨i, hi, hsub⟩ := h
  refine ⟨i, ?_, ?_⟩
  · simpa [pyLower] using hi
  · unfold isSubAt at hsub ⊢
    rw [beq_iff_eq] at hsub ⊢
    show ((s.data.map Char.toLower).drop i).take pat.data.length = pat.data
    rw [← List.map_drop, ← List.map_take, hsub, hpat]

/-! ### Claim C6 -/

/-- C6: the rule-based fallback decision is a deterministic function —
two runs of `_make_fallback_decision` on the identical conversation and
the identical page snapshot return the identical decision. -/
theorem c6_fallback_deterministic :
    ∀ (messages1 messages2 : List Message) (page1 page2 : String),
      messages1 = messages2 → page1 = page2 →
      make_fallback_decision messages1 page1 = make_fallback_decision messages2 page2 := by
  intro m1 m2 p1 p2 hm hp
  rw [hm, hp]

/-- Witness for C6 at a concrete conversation and snapshot. -/
theorem c6_fallback_deterministic_witness :
    make_fallback_decision [{ role := "user", content := some "buy the item" }] mockPageHtml =
      make_fallback_decision [{ role := "user", content := some "buy the item" }] mockPageHtml :=
  c6_fallback_deterministic _ _ _ _ rfl rfl

/-! ### Claim C2 -/

/-- C2 counterexample: on "pay now to complete purchase" the fallback does
not return the payment click — the word "complete" satisfies the
finish_task pattern, which is checked first. -/
theorem c2_counterexample_not_payment_click :
    make_fallback_decision [{ role := "user", content := some "pay now to complete purchase" }]
        mockPageHtml ≠
      some (Decision.toolCalls [⟨"click_element",
        [("selector", PyValue.str "button.pay-now, button.checkout, button#purchase")]⟩]) := by
  decide

/-- C2 amended: on "pay now to complete purchase" both the finish_task and
the payment_action patterns match, and the fallback returns the terminal
completion signal of the finish rule, which precedes the payment rule. -/
theorem c2_amended_finish_rule_wins :
    make_fallback_decision [{ role := "user", content := some "pay now to complete purchase" }]
        mockPageHtml = some (Decision.content "FINISH") ∧
    finish_task_search "pay now to complete purchase" = true ∧
    payment_action_search "pay now to complete purchase" = true := by
  decide

/-! ### Claim C10 -/

/-- C10: after `security_check_node` and after `human_approval_node` the
pending `browser_action` is always the empty string (any pending approval
request is unconditionally cleared); the step leaving CHECK therefore
always routes to the agent node and never to `human_approval`, and the
approval node never alters completion status or the conversation, so no
denial outcome exists in the compiled workflow. -/
theorem c10_pending_action_always_cleared :
    ∀ (enable_security_checks : Bool) (s : AgentState),
      (security_check_node s).browser_action = "" ∧
      (human_approval_node s).browser_action = "" ∧
      workflowStep enable_security_checks WorkflowNode.security_check s =
        some (WorkflowNode.agent, security_check_node s) ∧
      (human_approval_node s).task_complete = s.task_complete ∧
      (human_approval_node s).messages = s.messages := by
  intro sec s
  have hba : (security_check_node s).browser_action = "" := by
    simp only [security_check_node]
    split
    · rfl
    · simp_all
  refine ⟨hba, rfl, ?_, rfl, rfl⟩
  show some (should_request_approval (security_check_node s), security_check_node s) = _
  rw [should_request_approval, if_neg (by simp [hba])]

/-! ### Claim C5 -/

/-- C5: whenever the conversation has a last message with content and its
first user message carries a website mention, the fallback returns the
`navigate_to_website` tool call with the matched name — before any generic
rule is consulted (the conclusion holds whatever else the text matches). -/
theorem c5_website_mention_navigates :
    ∀ (messages : List Message) (page : String) (last : Message) (c u w : String),
      lastMessage? messages = some last →
      last.content = some c →
      firstUserContent messages = some (some u) →
      websiteSearch u = some w →
      make_fallback_decision messages page =
        some (Decision.toolCalls [⟨"navigate_to_website", [("website_name", PyValue.str w)]⟩]) := by
  intro messages page last c u w hlast hc hu hw
  have hne : u ≠ "" := by
    intro he
    subst he
    have : websiteSearch "" = Option.none := by decide
    rw [this] at hw
    cases hw
  have hcheck : websiteCheckOriginal (some u) = some w := by
    simp only [websiteCheckOriginal]
    rw [if_neg hne, hw]
  simp only [make_fallback_decision, hlast, hc, hu, hcheck]

/-- Witness for C5: the task "Navigate to amazon and find a chair" yields
`navigate_to_website` with website_name "amazon" as the first tool call. -/
theorem c5_website_mention_navigates_witness :
    make_fallback_decision
        [{ role := "user", content := some "Navigate to amazon and find a chair" }] mockPageHtml =
      some (Decision.toolCalls [⟨"navigate_to_website", [("website_name", PyValue.str "amazon")]⟩]) :=
  c5_website_mention_navigates _ mockPageHtml
    { role := "user", content := some "Navigate to amazon and find a chair" }
    "Navigate to amazon and find a chair" "Navigate to amazon and find a chair" "amazon"
    (by decide) (by decide) (by decide) (by decide)

/-! ### Claim C4 -/

/-- The keyword test of the claim: the rendered description contains
"pay", "checkout" or "purchase". -/
def gateKeyword (desc : String) : Bool :=
  containsSub desc "pay" || containsSub desc "checkout" || containsSub desc "purchase"

/-- The inspected argument values are strings where the tool-specific
heuristics lower them: selector for `click_element`, text for
`type_text` (absent keys default to the empty string and are fine). -/
def stringArgsOk (tool_name : String) (tool_args : PyDict) : Prop :=
  (tool_name = "click_element" → (getLowerStr tool_args "selector").isSome = true) ∧
  (tool_name = "type_text" → (getLowerStr tool_args "text").isSome = true)

/-- C4 counterexample: a `click_element` call whose rendered description
contains "pay" but whose selector value is a non-string makes
`should_require_approval` raise an AttributeError (embedded as `none`)
instead of returning true, although security checks are enabled. -/
theorem c4_counterexample_nonstring_selector :
    gateKeyword (renderedDescription "click_element"
      [("selector", PyValue.int 1), ("note", PyValue.str "pay")]) = true ∧
    should_require_approval true "click_element"
      [("selector", PyValue.int 1), ("note", PyValue.str "pay")] = Option.none := by
  decide

/-- C4 amended: with security checks disabled `should_require_approval`
returns false for every tool call whatsoever; with them enabled it returns
true for every call whose rendered description contains "pay", "checkout"
or "purchase", provided the argument values inspected by the tool-specific
heuristics are strings (a non-string there raises instead). -/
theorem c4_amended_gate_keywords :
    ∀ (tool_name : String) (tool_args : PyDict),
      should_require_approval false tool_name tool_args = some false ∧
      (stringArgsOk tool_name tool_args →
        gateKeyword (renderedDescription tool_name tool_args) = true →
        should_require_approval true tool_name tool_args = some true) := by
  intro tool_name tool_args
  constructor
  · rfl
  · intro hok hkw
    have hdes : is_destructive_action true (renderedDescription tool_name tool_args) = true := by
      unfold is_destructive_action
      rw [if_neg (by simp)]
      rw [List.any_eq_true]
      simp only [gateKeyword, Bool.or_eq_true] at hkw
      rcases hkw with (h | h) | h
      · exact ⟨"pay", by decide, containsSub_pyLower _ _ (by decide) h⟩
      · exact ⟨"checkout", by decide, containsSub_pyLower _ _ (by decide) h⟩
      · exact ⟨"purchase", by decide, containsSub_pyLower _ _ (by decide) h⟩
    unfold should_require_approval
    rw [if_neg (by simp)]
    by_cases hclick : tool_name = "click_element"
    · rw [if_pos hclick]
      obtain ⟨sel, hsel⟩ := Option.isSome_iff_exists.mp (hok.1 hclick)
      simp only [hsel]
      split
      · rfl
      · rw [hdes]
    · rw [if_neg hclick]
      by_cases htype : tool_name = "type_text"
      · rw [if_pos htype]
        obtain ⟨txt, htxt⟩ := Option.isSome_iff_exists.mp (hok.2 htype)
        simp only [htxt]
        split
        · rfl
        · rw [hdes]
      · rw [if_neg htype, hdes]

/-- Witness for C4: a concrete flagged call (the payment selector) and a
concrete disabled call. -/
theorem c4_amended_gate_keywords_witness :
    should_require_approval false "click_element"
      [("selector", PyValue.str "button.pay-now")] = some false ∧
    should_require_approval true "click_element"
      [("selector", PyValue.str "button.pay-now")] = some true :=
  ⟨(c4_amended_gate_keywords "click_element" [("selector", PyValue.str "button.pay-now")]).1,
   (c4_amended_gate_keywords "click_element" [("selector", PyValue.str "button.pay-now")]).2
     ⟨fun _ => by decide, fun h => absurd h (by decide)⟩ (by decide)⟩

/-! ### Claim C8 -/

/-- The five tool names of the tool schema. -/
def knownToolNames : List String :=
  ["click_element", "type_text", "get_page_state", "scroll_page", "navigate_to_website"]

/-- A browser session every operation of which raises. -/
def failingEnv : BrowserEnv :=
  { click_element := fun _ => Except.error "boom",
    type_text := fun _ _ => Except.error "boom",
    get_interactive_elements := Except.error "boom",
    scroll_page := fun _ _ _ _ => Except.error "boom",
    navigate_to_url := fun _ => Except.error "boom" }

/-- C8 counterexample: when the page-analysis operation of a live session
raises during a `get_page_state` tool call, `execute_tool` catches the
exception but returns the default mock page state — a truthy,
success-looking value — rather than a failure result (False). -/
theorem c8_counterexample_page_state_masked :
    failingEnv.get_interactive_elements = Except.error "boom" ∧
    execute_tool (some failingEnv) "get_page_state" [] = PyValue.str mockPageHtml ∧
    execute_tool (some failingEnv) "get_page_state" [] ≠ PyValue.bool false := by
  refine ⟨rfl, rfl, ?_⟩
  intro h
  rw [show execute_tool (some failingEnv) "get_page_state" [] = PyValue.str mockPageHtml from rfl]
    at h
  cases h

/-- C8 amended: `execute_tool` never propagates an exception.  An unknown
tool name yields False; a raise from the click, type, scroll or navigate
environment operation is caught and yields False; a raise from the
page-analysis operation of `get_page_state` is caught and yields the
default mock page state string (not a failure result). -/
theorem c8_amended_execute_tool_catches :
    (∀ (context : Option BrowserEnv) (tool_name : String) (tool_args : PyDict),
      tool_name ∉ knownToolNames → execute_tool context tool_name tool_args = PyValue.bool false) ∧
    (∀ (env : BrowserEnv) (v : PyValue) (e : String),
      env.click_element v = Except.error e →
      execute_tool (some env) "click_element" [("selector", v)] = PyValue.bool false) ∧
    (∀ (env : BrowserEnv) (s t : PyValue) (e : String),
      env.type_text s t = Except.error e →
      execute_tool (some env) "type_text" [("selector", s), ("text", t)] = PyValue.bool false) ∧
    (∀ (env : BrowserEnv) (d : PyValue) (e : String),
      env.scroll_page d (PyValue.int 500) PyValue.none (PyValue.bool false) = Except.error e →
      execute_tool (some env) "scroll_page" [("direction", d)] = PyValue.bool false) ∧
    (∀ (env : BrowserEnv) (w : String) (e : String),
      env.navigate_to_url ("https://www." ++ removeSpaces (pyLower w) ++ ".com") =
          Except.error e →
      execute_tool (some env) "navigate_to_website" [("website_name", PyValue.str w)] =
        PyValue.bool false) ∧
    (∀ (env : BrowserEnv) (e : String),
      env.get_interactive_elements = Except.error e →
      execute_tool (some env) "get_page_state" [] = PyValue.str mockPageHtml) := by
  refine ⟨?_, ?_, ?_, ?_, ?_, ?_⟩
  · intro context tool_name tool_args hn
    simp only [knownToolNames, List.mem_cons, List.mem_singleton, not_or] at hn
    obtain ⟨h1, h2, h3, h4, h5⟩ := hn
    simp [execute_tool, h1, h2, h3, h4, h5]
  · intro env v e h
    simp [execute_tool, kwargsSingle, pyGet, List.lookup, click_element_wrapper, h]
  · intro env s t e h
    simp [execute_tool, kwargsTypeText, pyGet, List.lookup, type_text_wrapper, h]
  · intro env d e h
    simp [execute_tool, kwargsScroll, pyGet, List.lookup, scroll_page_wrapper, h]
  · intro env w e h
    simp [execute_tool, kwargsSingle, pyGet, List.lookup, navigate_to_website_wrapper, h]
  · intro env e h
    simp [execute_tool, get_page_state_wrapper, h]

/-- Witness for C8: the unknown tool "frobnicate" fails cleanly, and a
click on the all-raising session fails cleanly. -/
theorem c8_amended_execute_tool_catches_witness :
    execute_tool Option.none "frobnicate" [] = PyValue.bool false ∧
    execute_tool (some failingEnv) "click_element" [("selector", PyValue.str "button")] =
      PyValue.bool false :=
  ⟨c8_amended_execute_tool_catches.1 Option.none "frobnicate" [] (by decide),
   c8_amended_execute_tool_catches.2.1 failingEnv (PyValue.str "button") "boom" rfl⟩

/-! ### Claim C3 -/

/-- C3: an empty or whitespace-only task, and any `max_iterations` outside
[1, 20], raise ValidationError before any browser creation attempt runs
(zero creation calls, no context); a task with non-blank text is accepted
at the boundary values 1 and 20 and the call never raises. -/
theorem c3_validation_boundaries :
    ∀ (initial_task : String) (max_iterations : Int) (use_real_browser : Bool)
      (createOracle : Nat → Except String BrowserContextHandle)
      (workflowOracle : Nat → Except String AgentState)
      (closeOracle : Nat → Except String Unit),
      (pyStrip initial_task = "" →
        run_agent_workflow initial_task max_iterations use_real_browser
            createOracle workflowOracle closeOracle =
          (Except.error "Task description cannot be empty", ⟨0, false, 0, 0⟩)) ∧
      (pyStrip initial_task ≠ "" → (max_iterations < 1 ∨ max_iterations > 20) →
        run_agent_workflow initial_task max_iterations use_real_browser
            createOracle workflowOracle closeOracle =
          (Except.error "max_iterations must be between 1 and 20", ⟨0, false, 0, 0⟩)) ∧
      (pyStrip initial_task ≠ "" →
        (run_agent_workflow initial_task 1 use_real_browser
            createOracle workflowOracle closeOracle).1.isOk = true ∧
        (run_agent_workflow initial_task 20 use_real_browser
            createOracle workflowOracle closeOracle).1.isOk = true) := by
  intro task maxIter urb cO wO clO
  refine ⟨?_, ?_, ?_⟩
  · intro h
    unfold run_agent_workflow
    rw [if_pos h]
  · intro h hr
    unfold run_agent_workflow
    rw [if_neg h, if_pos hr]
  · intro h
    constructor
    · unfold run_agent_workflow
      rw [if_neg h, if_neg (by omega)]
      cases hc : (if urb then createLoop cO else (Option.none, 0)).1 <;> simp only [hc] <;> rfl
    · unfold run_agent_workflow
      rw [if_neg h, if_neg (by omega)]
      cases hc : (if urb then createLoop cO else (Option.none, 0)).1 <;> simp only [hc] <;> rfl

/-- A browser-creation oracle that always succeeds. -/
def alwaysCreate : Nat → Except String BrowserContextHandle := fun _ => Except.ok ()

/-- A workflow oracle that always fails (for example a
GraphRecursionError from an exhausted iteration budget). -/
def alwaysFailWorkflow : Nat → Except String AgentState := fun _ => Except.error "recursion"

/-- A close oracle that always fails. -/
def alwaysFailClose : Nat → Except String Unit := fun _ => Except.error "cleanup"

/-- A close oracle that always succeeds. -/
def alwaysOkClose : Nat → Except String Unit := fun _ => Except.ok ()

/-- Witness for C3 at concrete inputs: a whitespace-only task is rejected
with zero creation attempts, max_iterations 0 is rejected, and the
boundary budgets 1 and 20 are accepted for the task "buy the item". -/
theorem c3_validation_boundaries_witness :
    run_agent_workflow "  " 5 true alwaysCreate alwaysFailWorkflow alwaysOkClose =
      (Except.error "Task description cannot be empty", ⟨0, false, 0, 0⟩) ∧
    run_agent_workflow "buy the item" 0 true alwaysCreate alwaysFailWorkflow alwaysOkClose =
      (Except.error "max_iterations must be between 1 and 20", ⟨0, false, 0, 0⟩) ∧
    (run_agent_workflow "buy the item" 1 true alwaysCreate alwaysFailWorkflow
        alwaysOkClose).1.isOk = true ∧
    (run_agent_workflow "buy the item" 20 true alwaysCreate alwaysFailWorkflow
        alwaysOkClose).1.isOk = true :=
  ⟨(c3_validation_boundaries "  " 5 true alwaysCreate alwaysFailWorkflow alwaysOkClose).1
      (by decide),
   (c3_validation_boundaries "buy the item" 0 true alwaysCreate alwaysFailWorkflow
      alwaysOkClose).2.1 (by decide) (by omega),
   (c3_validation_boundaries "buy the item" 0 true alwaysCreate alwaysFailWorkflow
      alwaysOkClose).2.2 (by decide)⟩

/-! ### Claim C9 -/

/-- C9: whatever the validation outcome, the browser-creation result, and
the workflow result (success, failure or exhausted retries), the teardown
sequence of the finally block runs exactly once when a context was created
and not at all otherwise, makes between 1 and 3 close attempts, and its
outcome — even total failure — neither changes the returned run result nor
escalates: the returned result is identical for any two close oracles. -/
theorem c9_teardown_once_and_harmless :
    ∀ (initial_task : String) (max_iterations : Int) (use_real_browser : Bool)
      (createOracle : Nat → Except String BrowserContextHandle)
      (workflowOracle : Nat → Except String AgentState),
      (∀ closeOracle,
        ((run_agent_workflow initial_task max_iterations use_real_browser
            createOracle workflowOracle closeOracle).2.teardownRuns =
          if (run_agent_workflow initial_task max_iterations use_real_browser
              createOracle workflowOracle closeOracle).2.ctxCreated then 1 else 0) ∧
        (run_agent_workflow initial_task max_iterations use_real_browser
            createOracle workflowOracle closeOracle).2.closeAttempts ≤ 3 ∧
        ((run_agent_workflow initial_task max_iterations use_real_browser
            createOracle workflowOracle closeOracle).2.ctxCreated = true →
          1 ≤ (run_agent_workflow initial_task max_iterations use_real_browser
            createOracle workflowOracle closeOracle).2.closeAttempts)) ∧
      (∀ closeOracle1 closeOracle2,
        (run_agent_workflow initial_task max_iterations use_real_browser
            createOracle workflowOracle closeOracle1).1 =
        (run_agent_workflow initial_task max_iterations use_real_browser
            createOracle workflowOracle closeOracle2).1) := by
  intro task maxIter urb cO wO
  constructor
  · intro clO
    unfold run_agent_workflow
    split
    · simp
    · split
      · simp
      · cases hc : (if urb then createLoop cO else (Option.none, 0)).1 <;>
          simp only [hc]
        · simp
        · refine ⟨rfl, ?_, fun _ => ?_⟩ <;>
            · unfold cleanupLoop
              split
              · simp
              · split <;> simp
  · intro clO1 clO2
    unfold run_agent_workflow
    split
    · rfl
    · split
      · rfl
      · cases hc : (if urb then createLoop cO else (Option.none, 0)).1 <;> simp only [hc]

/-- Witness for C9: with a failing workflow and a close oracle that always
fails, the run still returns its error-state result, the teardown ran
once, and the result equals the one obtained with a succeeding close
oracle. -/
theorem c9_teardown_once_and_harmless_witness :
    (run_agent_workflow "buy the item" 5 true alwaysCreate alwaysFailWorkflow
        alwaysFailClose).2.teardownRuns = 1 ∧
    (run_agent_workflow "buy the item" 5 true alwaysCreate alwaysFailWorkflow
        alwaysFailClose).2.closeAttempts ≤ 3 ∧
    1 ≤ (run_agent_workflow "buy the item" 5 true alwaysCreate alwaysFailWorkflow
        alwaysFailClose).2.closeAttempts ∧
    (run_agent_workflow "buy the item" 5 true alwaysCreate alwaysFailWorkflow
        alwaysFailClose).1 =
      (run_agent_workflow "buy the item" 5 true alwaysCreate alwaysFailWorkflow
        alwaysOkClose).1 := by
  have h := c9_teardown_once_and_harmless "buy the item" 5 true alwaysCreate alwaysFailWorkflow
  obtain ⟨h1, h2, h3⟩ := h.1 alwaysFailClose
  refine ⟨?_, h2, h3 (by decide), h.2 alwaysFailClose alwaysOkClose⟩
  rw [h1, if_pos (by decide)]

/-! ### Claim C1 -/

/-- C1: evaluation of the compiled workflow (security checks enabled, the
configuration default) on the task "buy the item", whose fallback decision
is the payment-selector click and is flagged by the Security Gate.  After
the agent step the run sits at the tool node with `browser_action` still
set to the approval prompt: the edge leaving the agent node tests only for
the presence of tool calls, so the flagged call is handed to the Tool
Executor in the same step — it is executed (a tool-result message is
appended) while the pending approval is never granted and the
`human_approval` node is never entered. -/
theorem c1_flagged_call_reaches_tool_executor :
    should_require_approval true "click_element"
      [("selector", PyValue.str "button.pay-now, button.checkout, button#purchase")] =
        some true ∧
    (runSteps true 1 (WorkflowNode.security_check, initState "buy the item")).map Prod.fst =
      some WorkflowNode.agent ∧
    (runSteps true 2 (WorkflowNode.security_check, initState "buy the item")).map Prod.fst =
      some WorkflowNode.tool ∧
    (runSteps true 2 (WorkflowNode.security_check, initState "buy the item")).map
        (fun ns => ns.2.browser_action) =
      some "Click on element: button.pay-now, button.checkout, button#purchase" ∧
    (runSteps true 3 (WorkflowNode.security_check, initState "buy the item")).map Prod.fst =
      some WorkflowNode.terminal ∧
    (runSteps true 3 (WorkflowNode.security_check, initState "buy the item")).map
        (fun ns => lastMessage? ns.2.messages) =
      some (some { role := "tool",
                   content := some "Tool click_element executed with result: True",
                   tool_call_id := some "1" }) ∧
    (runSteps true 3 (WorkflowNode.security_check, initState "buy the item")).map
        (fun ns => ns.2.browser_action) =
      some "Click on element: button.pay-now, button.checkout, button#purchase" := by
  decide

/-! ### Claim C7 -/

/-- A tool call on which the agent node cannot raise: the security check
and the approval renderer both return a value. -/
def safeToolCall (tc : ToolCall) : Prop :=
  (should_require_approval true tc.name tc.args).isSome = true ∧
  (get_approval_message tc.name tc.args).isSome = true

/-- A decision the agent node can always consume: text content, or a
one-element tool-call list whose call is safe. -/
def decisionSafe : Decision → Prop
  | Decision.content _ => True
  | Decision.toolCalls tcs => ∃ tc, tcs = [tc] ∧ safeToolCall tc

theorem fallback_single_user_shape (u : String) :
    ∃ d, make_fallback_decision [{ role := "user", content := some u }] mockPageHtml = some d ∧
      decisionSafe d := by
  have h1 : lastMessage? [({ role := "user", content := some u } : Message)] =
      some { role := "user", content := some u } := rfl
  have h2 : firstUserContent [({ role := "user", content := some u } : Message)] =
      some (some (pyStrip u)) := rfl
  simp only [make_fallback_decision, h1, h2]
  cases hw : websiteCheckOriginal (some (pyStrip u)) with
  | some w =>
    simp only [hw]
    exact ⟨_, rfl, _, rfl, rfl, rfl⟩
  | none =>
    simp only [hw]
    repeat' split
    all_goals first
      | exact ⟨_, rfl, trivial⟩
      | exact ⟨_, rfl, _, rfl, rfl, rfl⟩

theorem agent_step_of_content (sec : Bool) (S : AgentState) (c : String)
    (hd : make_decision S.messages S.page_map = some (Decision.content c)) :
    ∃ s2, workflowStep sec WorkflowNode.agent S = some (WorkflowNode.terminal, s2) ∧
      s2.task_complete = true := by
  have hcont : ∀ (T : AgentState) (m : Message), m.tool_calls = Option.none →
      T.messages = S.messages ++ [m] →
      should_continue_to_tool T = some WorkflowNode.terminal := by
    intro T m hm hT
    unfold should_continue_to_tool
    rw [hT, lastMessage?_append_one]
    simp [hm]
  by_cases hf : containsSub (pyUpper c) "FINISH" = true
  · simp only [workflowStep, agent_node, hd, if_pos hf]
    rw [hcont _ _ rfl rfl]
    exact ⟨_, rfl, rfl⟩
  · simp only [workflowStep, agent_node, hd, if_neg hf]
    rw [hcont _ _ rfl rfl]
    exact ⟨_, rfl, rfl⟩

theorem agent_step_of_toolcall (sec : Bool) (S : AgentState) (tc : ToolCall)
    (hd : make_decision S.messages S.page_map = some (Decision.toolCalls [tc]))
    (hsafe : safeToolCall tc) :
    ∃ s2, workflowStep sec WorkflowNode.agent S = some (WorkflowNode.tool, s2) ∧
      lastMessage? s2.messages =
        some { role := "assistant", tool_calls := some [tc] } := by
  have hcont : ∀ T : AgentState,
      T.messages = S.messages ++ [{ role := "assistant", tool_calls := some [tc] }] →
      should_continue_to_tool T = some WorkflowNode.tool := by
    intro T hT
    unfold should_continue_to_tool
    rw [hT, lastMessage?_append_one]
    rfl
  cases sec with
  | false =>
    have happ : should_require_approval false tc.name tc.args = some false := rfl
    simp only [workflowStep, agent_node, hd, happ]
    rw [hcont _ rfl]
    exact ⟨_, rfl, lastMessage?_append_one _ _⟩
  | true =>
    obtain ⟨b, hb⟩ := Option.isSome_iff_exists.mp hsafe.1
    cases b with
    | true =>
      obtain ⟨msg, hmsg⟩ := Option.isSome_iff_exists.mp hsafe.2
      simp only [workflowStep, agent_node, hd, hb, hmsg]
      rw [hcont _ rfl]
      exact ⟨_, rfl, lastMessage?_append_one _ _⟩
    | false =>
      simp only [workflowStep, agent_node, hd, hb]
      rw [hcont _ rfl]
      exact ⟨_, rfl, lastMessage?_append_one _ _⟩

theorem tool_step_terminates (sec : Bool) (S : AgentState) (tc : ToolCall)
    (h : lastMessage? S.messages = some { role := "assistant", tool_calls := some [tc] }) :
    ∃ s3, workflowStep sec WorkflowNode.tool S = some (WorkflowNode.terminal, s3) ∧
      s3.task_complete = true := by
  simp only [workflowStep, tool_node, h]
  exact ⟨_, rfl, rfl⟩

/-- C7 amended: (a) when no rule matches, the fallback returns the
terminal informational text response and no tool call; (b) the agent node
marks the task complete on every plain-text decision; (c) every run of the
compiled mock-mode workflow on a non-blank task reaches the terminal state
within 3 graph steps, with the completion flag set — hence within the
`max_iterations` step budget whenever that budget is at least 3 — and
never loops; (d) the terminal state is absorbing. -/
theorem c7_amended_runs_terminate :
    (∀ (messages : List Message) (page : String) (last : Message) (c : String)
        (ou : Option String),
      lastMessage? messages = some last →
      last.content = some c →
      firstUserContent messages = some ou →
      websiteCheckOriginal ou = Option.none →
      finish_task_search (pyLower (pyStrip c)) = false →
      submit_click_search (pyLower (pyStrip c)) = false →
      payment_action_search (pyLower (pyStrip c)) = false →
      text_input_search (pyLower (pyStrip c)) = false →
      scroll_action_search (pyLower (pyStrip c)) = false →
      navigate_action_search (pyLower (pyStrip c)) = false →
      search_action_search (pyLower (pyStrip c)) = false →
      websiteSearch (pyLower (pyStrip c)) = Option.none →
      websiteSearch (pyStrip c) = Option.none →
      make_fallback_decision messages page =
        some (Decision.content (defaultResponse (containsSub (pyLower page) "form")
          (containsSub (pyLower page) "input") (containsSub (pyLower page) "button")))) ∧
    (∀ (sec : Bool) (s : AgentState) (c : String),
      make_decision s.messages s.page_map = some (Decision.content c) →
      ∃ s2, agent_node sec s = some s2 ∧ s2.task_complete = true) ∧
    (∀ (sec : Bool) (initial_task : String), pyStrip initial_task ≠ "" →
      ∃ s, runSteps sec 3 (WorkflowNode.security_check, initState initial_task) =
          some (WorkflowNode.terminal, s) ∧ s.task_complete = true) ∧
    (∀ (sec : Bool) (n : Nat) (s : AgentState),
      runSteps sec n (WorkflowNode.terminal, s) = some (WorkflowNode.terminal, s)) := by
  refine ⟨?_, ?_, ?_, ?_⟩
  · intro messages page last c ou hlast hc hou hw0 hfin hsub hpay htxt hscr hnav hsea hw1 hw2
    simp only [make_fallback_decision, hlast, hc, hou, hw0, hfin, hsub, hpay, htxt, hscr,
      hnav, hsea, hw1, hw2, Bool.false_eq_true, if_false, Bool.or_self]
  · intro sec s c hd
    by_cases hf : containsSub (pyUpper c) "FINISH" = true
    · simp only [agent_node, hd, if_pos hf]
      exact ⟨_, rfl, rfl⟩
    · simp only [agent_node, hd, if_neg hf]
      exact ⟨_, rfl, rfl⟩
  · intro sec task h
    have hu : pyStrip (pyStrip task) = pyStrip task := pyStrip_idem task
    have h1 : workflowStep sec WorkflowNode.security_check (initState task) =
        some (WorkflowNode.agent,
          { messages := [{ role := "user", content := some (pyStrip task) }],
            page_map := mockPageHtml, browser_action := "", task_complete := false }) := rfl
    have hval : validate_messages_raises
        [({ role := "user", content := some (pyStrip task) } : Message)] = false := by
      show (pyStrip (pyStrip task) == "") = false
      rw [hu]
      exact beq_eq_false_iff_ne.mpr h
    have hmd : make_decision [({ role := "user", content := some (pyStrip task) } : Message)]
        mockPageHtml =
        make_fallback_decision [({ role := "user", content := some (pyStrip task) } : Message)]
          mockPageHtml := by
      simp [make_decision, hval]
    obtain ⟨d, hd, hsafe⟩ := fallback_single_user_shape (pyStrip task)
    have hd2 : make_decision [({ role := "user", content := some (pyStrip task) } : Message)]
        mockPageHtml = some d := hmd.trans hd
    cases d with
    | content c =>
      obtain ⟨s2, h2, hc2⟩ := agent_step_of_content sec
        { messages := [{ role := "user", content := some (pyStrip task) }],
          page_map := mockPageHtml, browser_action := "", task_complete := false } c hd2
      refine ⟨s2, ?_, hc2⟩
      have e1 : runSteps sec 3 (WorkflowNode.security_check, initState task) =
          runSteps sec 2 (WorkflowNode.agent,
            { messages := [{ role := "user", content := some (pyStrip task) }],
              page_map := mockPageHtml, browser_action := "", task_complete := false }) := by
        show (workflowStep sec WorkflowNode.security_check (initState task)).bind
          (runSteps sec 2) = _
        rw [h1]
        rfl
      have e2 : runSteps sec 2 (WorkflowNode.agent,
          { messages := [{ role := "user", content := some (pyStrip task) }],
            page_map := mockPageHtml, browser_action := "", task_complete := false }) =
          runSteps sec 1 (WorkflowNode.terminal, s2) := by
        show (workflowStep sec WorkflowNode.agent _).bind (runSteps sec 1) = _
        rw [h2]
        rfl
      rw [e1, e2]
      rfl
    | toolCalls tcs =>
      simp only [decisionSafe] at hsafe
      obtain ⟨tc, htc, hsafetc⟩ := hsafe
      subst htc
      obtain ⟨s2, h2, hlast2⟩ := agent_step_of_toolcall sec
        { messages := [{ role := "user", content := some (pyStrip task) }],
          page_map := mockPageHtml, browser_action := "", task_complete := false } tc hd2 hsafetc
      obtain ⟨s3, h3, hc3⟩ := tool_step_terminates sec s2 tc hlast2
      refine ⟨s3, ?_, hc3⟩
      have e1 : runSteps sec 3 (WorkflowNode.security_check, initState task) =
          runSteps sec 2 (WorkflowNode.agent,
            { messages := [{ role := "user", content := some (pyStrip task) }],
              page_map := mockPageHtml, browser_action := "", task_complete := false }) := by
        show (workflowStep sec WorkflowNode.security_check (initState task)).bind
          (runSteps sec 2) = _
        rw [h1]
        rfl
      have e2 : runSteps sec 2 (WorkflowNode.agent,
          { messages := [{ role := "user", content := some (pyStrip task) }],
            page_map := mockPageHtml, browser_action := "", task_complete := false }) =
          runSteps sec 1 (WorkflowNode.tool, s2) := by
        show (workflowStep sec WorkflowNode.agent _).bind (runSteps sec 1) = _
        rw [h2]
        rfl
      have e3 : runSteps sec 1 (WorkflowNode.tool, s2) = some (WorkflowNode.terminal, s3) := by
        show (workflowStep sec WorkflowNode.tool s2).bind (runSteps sec 0) = _
        rw [h3]
        rfl
      rw [e1, e2, e3]
  · intro sec n s
    induction n with
    | zero => rfl
    | succ k ih =>
      show (workflowStep sec WorkflowNode.terminal s).bind (runSteps sec k) = _
      exact ih

/-- C7 counterexample: `max_iterations` is the langgraph recursion limit,
a bound on graph super-steps, and the boundary value 1 is accepted by
validation; but after 1 step the run on the unrecognized task
"do something vague" still sits at the agent node, not at the terminal
state, so it does not reach the terminal state within `max_iterations`
steps (the budget exhausts, `ainvoke` raises, and the run is returned as
an incomplete error outcome instead).  The last conjunct records that this
content-only run does reach the terminal state at step 2, so only the
budget, not the run itself, is at fault. -/
theorem c7_counterexample_budget_one :
    (runSteps true 1 (WorkflowNode.security_check, initState "do something vague")).map
        Prod.fst = some WorkflowNode.agent ∧
    WorkflowNode.agent ≠ WorkflowNode.terminal ∧
    (runSteps true 2 (WorkflowNode.security_check, initState "do something vague")).map
        Prod.fst = some WorkflowNode.terminal := by
  decide

/-- Witness for C7: the unrecognized task "do something vague" produces
the terminal informational response at the fallback, and its full run
reaches the terminal state with the completion flag set within 3 steps. -/
theorem c7_amended_runs_terminate_witness :
    make_fallback_decision [{ role := "user", content := some "do something vague" }]
        mockPageHtml =
      some (Decision.content (defaultResponse
        (containsSub (pyLower mockPageHtml) "form")
        (containsSub (pyLower mockPageHtml) "input")
        (containsSub (pyLower mockPageHtml) "button"))) ∧
    (∃ s, runSteps true 3 (WorkflowNode.security_check, initState "do something vague") =
        some (WorkflowNode.terminal, s) ∧ s.task_complete = true) :=
  ⟨c7_amended_runs_terminate.1
      [{ role := "user", content := some "do something vague" }] mockPageHtml
      { role := "user", content := some "do something vague" } "do something vague"
      (some "do something vague")
      (by decide) (by decide) (by decide) (by decide) (by decide) (by decide) (by decide)
      (by decide) (by decide) (by decide) (by decide) (by decide) (by decide),
   c7_amended_runs_terminate.2.2.1 true "do something vague" (by decide)⟩
